import Mathlib

/-!
Verification development for the user-account HTTP controller layer
(`openedx/core/djangoapps/user_api/accounts/views.py`).

The controller is request-routing-and-status-mapping glue: it extracts
parameters, calls external collaborators (the account settings/update
services, the org email-opt-in store, the retirement signal), optionally
inside a database transaction, and maps domain exceptions to HTTP
responses.  We embed the controller shallowly: the collaborators become
function parameters, `transaction.atomic` becomes run-on-state with
rollback on exception, and an uncaught Python exception becomes the
`.error` case of an `Except` result.
-/

namespace EdxAccounts

/-- The Python exceptions that flow through these handlers: the four domain
exceptions from `..errors`, Django's `DoesNotExist`, and the builtin
`KeyError`/`IndexError` raised by `data['k']` and `settings[0]`; `other`
stands for any further exception reaching a broad `except Exception`. -/
inductive PyExc where
  | userNotAuthorized
  | userNotFound
  | accountValidationError (field_errors : List (String × String))
  | accountUpdateError (developer_message user_message : String)
  | doesNotExist
  | keyError (k : String)
  | indexError
  | other (msg : String)
deriving DecidableEq

/-- `six.text_type(exc)`: the textual description of an exception, used as
the body of the 500 responses. -/
def text_type : PyExc → String
  | .userNotAuthorized => "UserNotAuthorized"
  | .userNotFound => "UserNotFound"
  | .accountValidationError _ => "AccountValidationError"
  | .accountUpdateError d _ => d
  | .doesNotExist => "matching query does not exist."
  | .keyError k => k
  | .indexError => "list index out of range"
  | .other msg => msg

/-- A serialized account settings map (field name to rendered value). -/
abbrev FieldMap := List (String × String)

/-- The response bodies this controller produces. -/
inductive Body where
  | empty
  | usernameBody (username : String)
  | settings (m : FieldMap)
  | settingsList (ms : List FieldMap)
  | fieldErrors (fe : List (String × String))
  | devUserMsg (developer_message user_message : String)
  | message (s : String)
  | text (s : String)
deriving DecidableEq

/-- An HTTP response as the handlers build one: a status code and a body. -/
structure HttpResponse where
  statusCode : Nat
  body : Body
deriving DecidableEq

/-- `django.db.transaction.atomic`: run the block on the state; on success
keep the new state, on any exception roll back to the entry state and let
the exception continue to the surrounding handlers. -/
def atomic {σ ε α : Type} (body : σ → Except ε (σ × α)) (s : σ) :
    σ × Except ε α :=
  match body s with
  | .ok (s', a) => (s', .ok a)
  | .error e => (s, .error e)

/-- Python `str.strip(c)` on a character list: drop leading and trailing
occurrences of `c`, keep everything else. -/
def pyStripChar (c : Char) (l : List Char) : List Char :=
  ((l.dropWhile (fun x => x = c)).reverse.dropWhile (fun x => x = c)).reverse

/-- Python `str.split(c)` for a one-character separator: split at every
occurrence, keeping empty pieces (`"".split(',') == [""]`,
`"a,,b".split(',') == ["a","","b"]`). -/
def pySplitChar (c : Char) : List Char → List (List Char)
  | [] => [[]]
  | x :: xs =>
    let r := pySplitChar c xs
    if x = c then [] :: r
    else
      match r with
      | [] => [[x]]
      | y :: ys => (x :: y) :: ys

/-- `usernames.strip(',').split(',')` from `AccountViewSet.list`
(views.py line 190). -/
def split_usernames (s : String) : List String :=
  (pySplitChar ',' (pyStripChar ',' s.toList)).map List.asString

/-- `request.data.get(k)` / `request.data[k]` lookup on a parsed body. -/
def lookupBody (data : List (String × String)) (k : String) : Option String :=
  (data.find? (fun p => p.1 = k)).map (fun p => p.2)

/-- The slice of a request the `AccountViewSet` handlers read: the
authenticated user's name and staff bit, the `username` query parameter and
the `view` query parameter. -/
structure Request where
  userUsername : String
  userIsStaff : Bool
  usernameParam : Option String
  viewParam : Option String
deriving DecidableEq

/-- The `usernames` argument as `AccountViewSet.list` actually passes it to
`get_account_settings`: the raw falsy parameter (`None` or `""`) unchanged,
or the comma-split list. -/
inductive UsernamesArg where
  | raw (p : Option String)
  | parsed (l : List String)
deriving DecidableEq

/-- The account-settings service's failure mode.  Modelled from the spec:
the Account Settings Service (`get_account_settings`, external to this
file) "Fails with `UserNotFound`" and with nothing else. -/
inductive GetErr where
  | userNotFound
deriving DecidableEq

/-- Modelled from the spec: the external Account Settings Service
(`get_account_settings`): given the usernames argument and the `view`
selector it returns one visible field map per resolved username, failing
only with `UserNotFound`. -/
def GetSvc : Type :=
  UsernamesArg → Option String → Except GetErr (List FieldMap)

/-- `AccountViewSet.get` (views.py lines 177-181): GET /api/user/v1/me. -/
def AccountViewSet.get (request : Request) : HttpResponse :=
  ⟨200, .usernameBody request.userUsername⟩

/-- `AccountViewSet.list` (views.py lines 183-196):
GET /api/user/v1/accounts?username=… .  A falsy parameter is passed through
unchanged; a truthy one is stripped of outer commas and split; a
`UserNotFound` from the service becomes 403 for staff and 404 otherwise. -/
def AccountViewSet.list (gas : GetSvc) (request : Request) :
    Except PyExc HttpResponse :=
  let usernames : UsernamesArg :=
    match request.usernameParam with
    | none => .raw none
    | some s => if s = "" then .raw (some "") else .parsed (split_usernames s)
  match gas usernames request.viewParam with
  | .error .userNotFound =>
    .ok ⟨if request.userIsStaff then 403 else 404, .empty⟩
  | .ok account_settings => .ok ⟨200, .settingsList account_settings⟩

/-- `AccountViewSet.retrieve` (views.py lines 198-208):
GET /api/user/v1/accounts/{username}/ .  `account_settings[0]` raises
`IndexError` when the service returns an empty list. -/
def AccountViewSet.retrieve (gas : GetSvc) (request : Request)
    (username : String) : Except PyExc HttpResponse :=
  match gas (.parsed [username]) request.viewParam with
  | .error .userNotFound =>
    .ok ⟨if request.userIsStaff then 403 else 404, .empty⟩
  | .ok account_settings =>
    match account_settings with
    | [] => .error .indexError
    | m :: _ => .ok ⟨200, .settings m⟩

/-- `AccountViewSet.partial_update` (views.py lines 210-237), with the two
external collaborators as parameters already applied to the fixed request
data: `update_account_settings(request.user, request.data, username=…)`
mutates the store or raises, and `get_account_settings(request, [username])`
reads the store.  Both run inside one `transaction.atomic` block; the four
domain exceptions are mapped to responses, anything else propagates. -/
def AccountViewSet.partial_update {σ : Type}
    (update_account_settings : σ → Except PyExc σ)
    (get_account_settings : σ → Except PyExc (List FieldMap))
    (request : Request) (s : σ) : σ × Except PyExc HttpResponse :=
  match atomic (fun s0 =>
      match update_account_settings s0 with
      | .error e => .error e
      | .ok s1 =>
        match get_account_settings s1 with
        | .error e => .error e
        | .ok settings =>
          match settings with
          | [] => .error .indexError
          | m :: _ => .ok (s1, m)) s with
  | (s', .ok account_settings) => (s', .ok ⟨200, .settings account_settings⟩)
  | (s', .error .userNotAuthorized) =>
    (s', .ok ⟨if request.userIsStaff then 403 else 404, .empty⟩)
  | (s', .error .userNotFound) => (s', .ok ⟨404, .empty⟩)
  | (s', .error (.accountValidationError fe)) =>
    (s', .ok ⟨400, .fieldErrors fe⟩)
  | (s', .error (.accountUpdateError d u)) =>
    (s', .ok ⟨400, .devUserMsg d u⟩)
  | (s', .error e) => (s', .error e)

/-- The merge-patch media type required by `MergePatchParser`
(views.py line 175). -/
def mergePatchMediaType : String := "application/merge-patch+json"

/-- Modelled from the spec: the REST framework's parser dispatch under
`parser_classes = (MergePatchParser,)` — the parser class itself is not
under src/ — rejects a PATCH whose content type is not
`application/merge-patch+json` with 415 before the handler body runs. -/
def patch_dispatch {σ : Type}
    (update_account_settings : σ → Except PyExc σ)
    (get_account_settings : σ → Except PyExc (List FieldMap))
    (contentType : String) (request : Request) (s : σ) :
    σ × Except PyExc HttpResponse :=
  if contentType = mergePatchMediaType then
    AccountViewSet.partial_update update_account_settings
      get_account_settings request s
  else (s, .ok ⟨415, .empty⟩)

/-- A row of the user store as the admin endpoints touch it. -/
structure UserRec where
  username : String
  email : String
  passwordUsable : Bool
deriving DecidableEq

/-- `User.objects.get(username=…)` / `user_model.objects.get(username=…)`:
raises `DoesNotExist` when no row matches. -/
def objects_get (users : List UserRec) (username : String) :
    Except PyExc UserRec :=
  match users.find? (fun u => u.username = username) with
  | none => .error .doesNotExist
  | some u => .ok u

/-- `_set_unusable_password(user)` followed by `user.save()`
(views.py lines 370-376): the named user's credential becomes unusable. -/
def set_unusable_password (users : List UserRec) (username : String) :
    List UserRec :=
  users.map (fun u =>
    if u.username = username then { u with passwordUsable := false } else u)

/-- `AccountDeactivationView.post` (views.py lines 248-255):
POST /api/user/v1/accounts/{username}/deactivate/ .  No `try` surrounds the
body, so every exception — in particular `DoesNotExist` from
`User.objects.get` — propagates out of the handler. -/
def AccountDeactivationView.post
    (get_account_settings : List UserRec → String → Except PyExc (List FieldMap))
    (users : List UserRec) (username : String) :
    List UserRec × Except PyExc HttpResponse :=
  match objects_get users username with
  | .error e => (users, .error e)
  | .ok _ =>
    let users' := set_unusable_password users username
    match get_account_settings users' username with
    | .error e => (users', .error e)
    | .ok settings =>
      match settings with
      | [] => (users', .error .indexError)
      | m :: _ => (users', .ok ⟨200, .settings m⟩)

/-- A `UserOrgTag` row with `key='email-optin'` semantics: the per-(user,
org) email preference the retirement endpoint enumerates. -/
structure UserOrgTag where
  user : String
  org : String
  key : String
  optIn : Bool
deriving DecidableEq

/-- The `for preference in UserOrgTag.objects.filter(user=user,
key='email-optin'): update_email_opt_in(user, preference.org, False)` loop
(views.py lines 283-284), with the external `update_email_opt_in` as a
parameter acting on the tag store (it may itself raise). -/
def opt_out_loop
    (update_email_opt_in : String → String → List UserOrgTag → Except PyExc (List UserOrgTag))
    (user : String) :
    List UserOrgTag → List UserOrgTag → Except PyExc (List UserOrgTag)
  | [], tags => .ok tags
  | p :: ps, tags =>
    match update_email_opt_in user p.org tags with
    | .error e => .error e
    | .ok tags' => opt_out_loop update_email_opt_in user ps tags'

/-- The `try` body of `AccountRetireMailingsView.post` (views.py lines
278-288): resolve the potentially retired user, then inside one
`transaction.atomic` block opt the user out of every org email tag and send
the `USER_RETIRE_MAILINGS` signal (which may raise). -/
def AccountRetireMailingsView.tryBlock
    (resolve_user : String → String → Except PyExc String)
    (update_email_opt_in : String → String → List UserOrgTag → Except PyExc (List UserOrgTag))
    (send_retire_signal : String → List UserOrgTag → Except PyExc Unit)
    (username retired_username : String) (tags : List UserOrgTag) :
    List UserOrgTag × Except PyExc Unit :=
  match resolve_user username retired_username with
  | .error e => (tags, .error e)
  | .ok user =>
    atomic (fun ts =>
      match opt_out_loop update_email_opt_in user
          (ts.filter (fun t => t.user = user && t.key = "email-optin")) ts with
      | .error e => .error e
      | .ok ts' =>
        match send_retire_signal user ts' with
        | .error e => .error e
        | .ok _ => .ok (ts', ())) tags

/-- `AccountRetireMailingsView.post` (views.py lines 266-294):
POST /api/user/v1/accounts/{username}/retire_mailings/ .  Note that
`request.data['retired_username']` (line 276) is evaluated before the
`try`, so a missing key raises an uncaught `KeyError`; inside the `try`,
`DoesNotExist` maps to 404 and any other exception to 500 with its text. -/
def AccountRetireMailingsView.post
    (resolve_user : String → String → Except PyExc String)
    (update_email_opt_in : String → String → List UserOrgTag → Except PyExc (List UserOrgTag))
    (send_retire_signal : String → List UserOrgTag → Except PyExc Unit)
    (data : List (String × String)) (username : String)
    (tags : List UserOrgTag) : List UserOrgTag × Except PyExc HttpResponse :=
  match lookupBody data "retired_username" with
  | none => (tags, .error (.keyError "retired_username"))
  | some retired_username =>
    match AccountRetireMailingsView.tryBlock resolve_user update_email_opt_in
        send_retire_signal username retired_username tags with
    | (ts, .ok _) => (ts, .ok ⟨204, .empty⟩)
    | (ts, .error .doesNotExist) => (ts, .ok ⟨404, .empty⟩)
    | (ts, .error e) => (ts, .ok ⟨500, .text (text_type e)⟩)

/-- The state `DeactivateLogoutView` touches: the user rows and the
`UserSocialAuth` links, as (username, provider) pairs. -/
structure LogoutState where
  users : List UserRec
  socialAuth : List (String × String)
deriving DecidableEq

/-- The `try` body of `DeactivateLogoutView.post` (views.py lines 350-361):
fetch the user (raising `DoesNotExist` when absent), then inside one
`transaction.atomic` block delete the user's social-auth links, replace the
email with the retired form (the external `get_retired_email_by_email` may
raise), save, and set the unusable password. -/
def DeactivateLogoutView.tryBlock
    (get_retired_email_by_email : String → Except PyExc String)
    (username : String) (st : LogoutState) : LogoutState × Except PyExc Unit :=
  match objects_get st.users username with
  | .error e => (st, .error e)
  | .ok user =>
    atomic (fun s =>
      let s1 : LogoutState :=
        { s with socialAuth := s.socialAuth.filter (fun p => p.1 ≠ username) }
      match get_retired_email_by_email user.email with
      | .error e => .error e
      | .ok retiredEmail =>
        let s2 : LogoutState :=
          { s1 with users := s1.users.map (fun u =>
              if u.username = username then { u with email := retiredEmail }
              else u) }
        let s3 : LogoutState :=
          { s2 with users := set_unusable_password s2.users username }
        .ok (s3, ())) st

/-- `DeactivateLogoutView.post` (views.py lines 333-367):
POST /api/user/v1/accounts/deactivate_logout/ .  A falsy `user` body field
(absent or empty, `if not username`) answers 404 with a message before the
`try`; inside the `try`, `DoesNotExist` maps to 404 and any other exception
to 500 with its text. -/
def DeactivateLogoutView.post
    (get_retired_email_by_email : String → Except PyExc String)
    (data : List (String × String)) (st : LogoutState) :
    LogoutState × Except PyExc HttpResponse :=
  match lookupBody data "user" with
  | none => (st, .ok ⟨404, .message "The user was not specified."⟩)
  | some username =>
    if username = "" then
      (st, .ok ⟨404, .message "The user was not specified."⟩)
    else
      match DeactivateLogoutView.tryBlock get_retired_email_by_email
          username st with
      | (st', .ok _) => (st', .ok ⟨204, .empty⟩)
      | (st', .error .doesNotExist) => (st', .ok ⟨404, .empty⟩)
      | (st', .error e) => (st', .ok ⟨500, .text (text_type e)⟩)

/-! Helper lemmas about the username parsing. -/

/-- `dropWhile (· = c)` leaves a list without `c` unchanged. -/
theorem dropWhile_eq_self_of (c : Char) (l : List Char)
    (h : ∀ x ∈ l, x ≠ c) : l.dropWhile (fun x => x = c) = l := by
  cases l with
  | nil => rfl
  | cons x xs =>
    have hx : ¬ (x = c) := h x (by simp)
    simp [List.dropWhile, hx]

/-- `pyStripChar` leaves a list without `c` unchanged. -/
theorem pyStripChar_eq_self (c : Char) (l : List Char)
    (h : ∀ x ∈ l, x ≠ c) : pyStripChar c l = l := by
  unfold pyStripChar
  rw [dropWhile_eq_self_of c l h]
  rw [dropWhile_eq_self_of c l.reverse
    (fun x hx => h x (List.mem_reverse.mp hx))]
  exact List.reverse_reverse l

/-- `pySplitChar` on a list without the separator yields that one piece. -/
theorem pySplitChar_eq_self (c : Char) (l : List Char)
    (h : ∀ x ∈ l, x ≠ c) : pySplitChar c l = [l] := by
  induction l with
  | nil => rfl
  | cons x xs ih =>
    have hx : ¬ (x = c) := h x (by simp)
    have ihr : pySplitChar c xs = [xs] := ih (fun y hy => h y (by simp [hy]))
    simp [pySplitChar, hx, ihr]

/-- A comma-free username is parsed as itself. -/
theorem split_usernames_single (s : String)
    (h : ∀ ch ∈ s.toList, ch ≠ ',') : split_usernames s = [s] := by
  unfold split_usernames
  rw [pyStripChar_eq_self ',' s.toList h, pySplitChar_eq_self ',' s.toList h]
  rw [List.map_cons, List.map_nil, String.asString_toList]

/-! The claim theorems. -/

/-- C1: a partial-update and the subsequent re-read of settings run inside
one atomic transaction: when validation fails the store is left exactly as
it was (rollback, response 400 with the field errors), and on success the
returned settings are the ones read from the state just written. -/
theorem partial_update_atomic_read_after_write {σ : Type}
    (upd : σ → Except PyExc σ)
    (gas : σ → Except PyExc (List FieldMap))
    (request : Request) (s : σ) :
    (∀ fe, upd s = .error (.accountValidationError fe) →
      AccountViewSet.partial_update upd gas request s
        = (s, .ok ⟨400, .fieldErrors fe⟩)) ∧
    (∀ s' m ms, upd s = .ok s' → gas s' = .ok (m :: ms) →
      AccountViewSet.partial_update upd gas request s
        = (s', .ok ⟨200, .settings m⟩)) := by
  constructor
  · intro fe h
    simp [AccountViewSet.partial_update, atomic, h]
  · intro s' m ms h1 h2
    simp [AccountViewSet.partial_update, atomic, h1, h2]

/-- Witness for C1 at a concrete store (a counter) and collaborators. -/
theorem partial_update_atomic_read_after_write_witness :
    AccountViewSet.partial_update (σ := Nat) (fun n => .ok (n + 1))
        (fun n => .ok [[("count", if n = 1 then "one" else "other")]])
        ⟨"alice", false, none, none⟩ 0
      = (1, .ok ⟨200, .settings [("count", "one")]⟩) :=
  (partial_update_atomic_read_after_write (fun n => .ok (n + 1))
      (fun n => .ok [[("count", if n = 1 then "one" else "other")]])
      ⟨"alice", false, none, none⟩ 0).2 1 [("count", "one")] [] rfl rfl

/-- C2: a GET retrieval (single or list) naming a username with no matching
account — so that the settings service raises `UserNotFound` — answers 403
when the caller is staff and 404 otherwise, and nothing else. -/
theorem nonexistent_username_masked (gas : GetSvc) (request : Request)
    (username param : String) (hparam : param ≠ "")
    (h1 : gas (.parsed [username]) request.viewParam = .error .userNotFound)
    (h2 : gas (.parsed (split_usernames param)) request.viewParam
      = .error .userNotFound) :
    AccountViewSet.retrieve gas request username
      = .ok ⟨if request.userIsStaff then 403 else 404, .empty⟩ ∧
    AccountViewSet.list gas { request with usernameParam := some param }
      = .ok ⟨if request.userIsStaff then 403 else 404, .empty⟩ := by
  constructor
  · simp [AccountViewSet.retrieve, h1]
  · simp [AccountViewSet.list, hparam, h2]

/-- Witness for C2: a staff caller asking for a nonexistent name gets 403
on both the single and the list retrieval. -/
theorem nonexistent_username_masked_witness :
    AccountViewSet.retrieve (fun _ _ => .error .userNotFound)
        ⟨"staffer", true, none, none⟩ "ghost" = .ok ⟨403, .empty⟩ ∧
    AccountViewSet.list (fun _ _ => .error .userNotFound)
        ⟨"staffer", true, some "ghost", none⟩ = .ok ⟨403, .empty⟩ :=
  nonexistent_username_masked (fun _ _ => .error .userNotFound)
    ⟨"staffer", true, none, none⟩ "ghost" "ghost" (by decide) rfl rfl

/-- C3 (counterexample): the list parameter parsing does not drop interior
empty entries — `"alice,,bob,"` does not resolve to `["alice", "bob"]`. -/
theorem split_usernames_counterexample :
    split_usernames "alice,,bob," ≠ ["alice", "bob"] := by decide

/-- C3 (amended): the comma-separated username parameter is parsed by
removing leading and trailing commas and then splitting on every comma,
keeping interior empty entries, so `"alice,,bob,"` resolves to
`["alice", "", "bob"]` in that order. -/
theorem split_usernames_keeps_interior_empties :
    split_usernames "alice,,bob," = ["alice", "", "bob"] := by decide

/-- C4 (counterexample): a retire-mailings request whose body lacks the
`retired_username` key raises an uncaught `KeyError` — the lookup happens
before the handler's `try`, so not every exception is converted to 500. -/
theorem retire_mailings_missing_key_uncaught :
    AccountRetireMailingsView.post (fun _ _ => .error .doesNotExist)
        (fun _ _ ts => .ok ts) (fun _ _ => .ok ())
        [("unrelated", "v")] "someone" []
      = ([], .error (.keyError "retired_username")) := rfl

/-- C4 (amended): at the two admin endpoints every exception raised inside
the handler's `try` block that is not the enumerated does-not-exist kind is
caught and converted to a 500 response carrying the exception's text, and
with the body fields present the handlers always answer with a response;
only the `retired_username` extraction, which precedes the `try` in
retire-mailings, can propagate. -/
theorem admin_endpoints_broad_catch_within_try
    (resolve_user : String → String → Except PyExc String)
    (update_email_opt_in : String → String → List UserOrgTag → Except PyExc (List UserOrgTag))
    (send_retire_signal : String → List UserOrgTag → Except PyExc Unit)
    (get_retired_email_by_email : String → Except PyExc String)
    (dataR dataD : List (String × String)) (username ru uname : String)
    (tags : List UserOrgTag) (st : LogoutState)
    (hkey : lookupBody dataR "retired_username" = some ru)
    (huser : lookupBody dataD "user" = some uname) (hne : uname ≠ "") :
    (∀ e, e ≠ .doesNotExist →
      (AccountRetireMailingsView.tryBlock resolve_user update_email_opt_in
          send_retire_signal username ru tags).2 = .error e →
      AccountRetireMailingsView.post resolve_user update_email_opt_in
          send_retire_signal dataR username tags
        = ((AccountRetireMailingsView.tryBlock resolve_user
              update_email_opt_in send_retire_signal username ru tags).1,
           .ok ⟨500, .text (text_type e)⟩)) ∧
    (∃ r, (AccountRetireMailingsView.post resolve_user update_email_opt_in
        send_retire_signal dataR username tags).2 = .ok r) ∧
    (∀ e, e ≠ .doesNotExist →
      (DeactivateLogoutView.tryBlock get_retired_email_by_email uname st).2
        = .error e →
      DeactivateLogoutView.post get_retired_email_by_email dataD st
        = ((DeactivateLogoutView.tryBlock get_retired_email_by_email
              uname st).1,
           .ok ⟨500, .text (text_type e)⟩)) ∧
    (∃ r, (DeactivateLogoutView.post get_retired_email_by_email dataD st).2
      = .ok r) := by
  refine ⟨?_, ?_, ?_, ?_⟩
  · intro e he herr
    rcases htb : AccountRetireMailingsView.tryBlock resolve_user
        update_email_opt_in send_retire_signal username ru tags with ⟨ts, res⟩
    rw [htb] at herr
    have hres : res = .error e := herr
    subst hres
    simp only [AccountRetireMailingsView.post, hkey, htb]
  · rcases htb : AccountRetireMailingsView.tryBlock resolve_user
        update_email_opt_in send_retire_signal username ru tags with ⟨ts, res⟩
    simp only [AccountRetireMailingsView.post, hkey, htb]
    cases res with
    | ok u => exact ⟨⟨204, .empty⟩, rfl⟩
    | error e => cases e <;> exact ⟨_, rfl⟩
  · intro e he herr
    rcases htb : DeactivateLogoutView.tryBlock get_retired_email_by_email
        uname st with ⟨st', res⟩
    rw [htb] at herr
    have hres : res = .error e := herr
    subst hres
    simp only [DeactivateLogoutView.post, huser, if_neg hne, htb]
  · rcases htb : DeactivateLogoutView.tryBlock get_retired_email_by_email
        uname st with ⟨st', res⟩
    simp only [DeactivateLogoutView.post, huser, if_neg hne, htb]
    cases res with
    | ok u => exact ⟨⟨204, .empty⟩, rfl⟩
    | error e => cases e <;> exact ⟨_, rfl⟩

/-- Witness for the amended C4: at both endpoints an exception inside the
`try` (a failing resolve; a failing retired-email derivation) comes back as
a 500 carrying the exception's text. -/
theorem admin_endpoints_broad_catch_within_try_witness :
    AccountRetireMailingsView.post (fun _ _ => .error (.other "boom"))
        (fun _ _ ts => .ok ts) (fun _ _ => .ok ())
        [("retired_username", "r1")] "u" []
      = ([], .ok ⟨500, .text "boom"⟩) ∧
    DeactivateLogoutView.post (fun _ => .error (.other "smtp"))
        [("user", "u2")] ⟨[⟨"u2", "u2@example.com", true⟩], []⟩
      = (⟨[⟨"u2", "u2@example.com", true⟩], []⟩,
         .ok ⟨500, .text "smtp"⟩) :=
  ⟨(admin_endpoints_broad_catch_within_try
      (fun _ _ => .error (.other "boom")) (fun _ _ ts => .ok ts)
      (fun _ _ => .ok ()) (fun _ => .error (.other "smtp"))
      [("retired_username", "r1")] [("user", "u2")] "u" "r1" "u2" []
      ⟨[⟨"u2", "u2@example.com", true⟩], []⟩
      rfl rfl (by decide)).1 (.other "boom") (by decide) rfl,
   (admin_endpoints_broad_catch_within_try
      (fun _ _ => .error (.other "boom")) (fun _ _ ts => .ok ts)
      (fun _ _ => .ok ()) (fun _ => .error (.other "smtp"))
      [("retired_username", "r1")] [("user", "u2")] "u" "r1" "u2" []
      ⟨[⟨"u2", "u2@example.com", true⟩], []⟩
      rfl rfl (by decide)).2.2.1 (.other "smtp") (by decide) rfl⟩

/-- C5: the partial-update handler maps the domain exceptions exactly:
`UserNotAuthorized` to 403 for a staff caller and 404 otherwise,
`UserNotFound` to 404, `AccountValidationError` to 400 with the
`field_errors` map, and `AccountUpdateError` to 400 with the
developer/user message pair — each with the store rolled back. -/
theorem partial_update_error_mapping {σ : Type}
    (upd : σ → Except PyExc σ)
    (gas : σ → Except PyExc (List FieldMap))
    (request : Request) (s : σ) :
    (upd s = .error .userNotAuthorized →
      AccountViewSet.partial_update upd gas request s
        = (s, .ok ⟨if request.userIsStaff then 403 else 404, .empty⟩)) ∧
    (upd s = .error .userNotFound →
      AccountViewSet.partial_update upd gas request s
        = (s, .ok ⟨404, .empty⟩)) ∧
    (∀ fe, upd s = .error (.accountValidationError fe) →
      AccountViewSet.partial_update upd gas request s
        = (s, .ok ⟨400, .fieldErrors fe⟩)) ∧
    (∀ d u, upd s = .error (.accountUpdateError d u) →
      AccountViewSet.partial_update upd gas request s
        = (s, .ok ⟨400, .devUserMsg d u⟩)) := by
  refine ⟨?_, ?_, ?_, ?_⟩
  · intro h
    simp [AccountViewSet.partial_update, atomic, h]
  · intro h
    simp [AccountViewSet.partial_update, atomic, h]
  · intro fe h
    simp [AccountViewSet.partial_update, atomic, h]
  · intro d u h
    simp [AccountViewSet.partial_update, atomic, h]

/-- Witness for C5: an unauthorized update by a staff caller answers 403. -/
theorem partial_update_error_mapping_witness :
    AccountViewSet.partial_update (σ := Nat)
        (fun _ => .error .userNotAuthorized) (fun _ => .ok [])
        ⟨"staffer", true, none, none⟩ 7
      = (7, .ok ⟨403, .empty⟩) :=
  (partial_update_error_mapping (fun _ => .error .userNotAuthorized)
      (fun _ => .ok []) ⟨"staffer", true, none, none⟩ 7).1 rfl

/-- C6: a PATCH whose content type is not `application/merge-patch+json`
answers 415 whatever the collaborators would do — the update is never
reached and the store is untouched. -/
theorem patch_wrong_content_type_415 {σ : Type}
    (upd : σ → Except PyExc σ)
    (gas : σ → Except PyExc (List FieldMap))
    (contentType : String) (request : Request) (s : σ)
    (h : contentType ≠ mergePatchMediaType) :
    patch_dispatch upd gas contentType request s
      = (s, .ok ⟨415, .empty⟩) := by
  simp [patch_dispatch, h]

/-- Witness for C6 at the plain-JSON content type. -/
theorem patch_wrong_content_type_415_witness :
    patch_dispatch (σ := Nat) (fun n => .ok n) (fun _ => .ok [])
        "application/json" ⟨"alice", false, none, none⟩ 0
      = (0, .ok ⟨415, .empty⟩) :=
  patch_wrong_content_type_415 (fun n => .ok n) (fun _ => .ok [])
    "application/json" ⟨"alice", false, none, none⟩ 0 (by decide)

/-- C7: in retire-mailings, a missing target answers 404, and a failure of
an org opt-out step or of the notification dispatch rolls the transaction
back — the tag store is exactly the pre-request one, no tag left opted
out — with a 500 response carrying the exception's text. -/
theorem retire_mailings_rollback_on_failure
    (resolve_user : String → String → Except PyExc String)
    (update_email_opt_in : String → String → List UserOrgTag → Except PyExc (List UserOrgTag))
    (send_retire_signal : String → List UserOrgTag → Except PyExc Unit)
    (data : List (String × String)) (username ru : String)
    (tags : List UserOrgTag)
    (hkey : lookupBody data "retired_username" = some ru) :
    (resolve_user username ru = .error .doesNotExist →
      AccountRetireMailingsView.post resolve_user update_email_opt_in
          send_retire_signal data username tags
        = (tags, .ok ⟨404, .empty⟩)) ∧
    (∀ user msg, resolve_user username ru = .ok user →
      opt_out_loop update_email_opt_in user
          (tags.filter (fun t => t.user = user && t.key = "email-optin"))
          tags
        = .error (.other msg) →
      AccountRetireMailingsView.post resolve_user update_email_opt_in
          send_retire_signal data username tags
        = (tags, .ok ⟨500, .text msg⟩)) ∧
    (∀ user ts' msg, resolve_user username ru = .ok user →
      opt_out_loop update_email_opt_in user
          (tags.filter (fun t => t.user = user && t.key = "email-optin"))
          tags
        = .ok ts' →
      send_retire_signal user ts' = .error (.other msg) →
      AccountRetireMailingsView.post resolve_user update_email_opt_in
          send_retire_signal data username tags
        = (tags, .ok ⟨500, .text msg⟩)) := by
  refine ⟨?_, ?_, ?_⟩
  · intro h
    simp [AccountRetireMailingsView.post, AccountRetireMailingsView.tryBlock,
      hkey, h]
  · intro user msg huser hloop
    simp [AccountRetireMailingsView.post, AccountRetireMailingsView.tryBlock,
      atomic, hkey, huser, hloop, text_type]
  · intro user ts' msg huser hloop hsig
    simp [AccountRetireMailingsView.post, AccountRetireMailingsView.tryBlock,
      atomic, hkey, huser, hloop, hsig, text_type]

/-- Witness for C7: the signal dispatch fails after one org tag was opted
out inside the transaction; the response is the 500 and the surviving tag
store still has the tag opted in. -/
theorem retire_mailings_rollback_on_failure_witness :
    AccountRetireMailingsView.post (fun _ _ => .ok "u1")
        (fun _ o ts => .ok (ts.map (fun t : UserOrgTag =>
          if t.user = "u1" && t.org = o then { t with optIn := false }
          else t)))
        (fun _ _ => .error (.other "dispatch failed"))
        [("retired_username", "u1h")] "u1"
        [⟨"u1", "orgX", "email-optin", true⟩]
      = ([⟨"u1", "orgX", "email-optin", true⟩],
         .ok ⟨500, .text "dispatch failed"⟩) :=
  (retire_mailings_rollback_on_failure (fun _ _ => .ok "u1")
      (fun _ o ts => .ok (ts.map (fun t : UserOrgTag =>
        if t.user = "u1" && t.org = o then { t with optIn := false }
        else t)))
      (fun _ _ => .error (.other "dispatch failed"))
      [("retired_username", "u1h")] "u1" "u1h"
      [⟨"u1", "orgX", "email-optin", true⟩] rfl).2.2 "u1"
    [⟨"u1", "orgX", "email-optin", false⟩] "dispatch failed" rfl rfl rfl

/-- C8: a deactivate-logout request whose body carries no `user` field
answers 404 with the explanatory message, never 500, and leaves the state
untouched. -/
theorem deactivate_logout_missing_user_404
    (get_retired_email_by_email : String → Except PyExc String)
    (data : List (String × String)) (st : LogoutState)
    (h : lookupBody data "user" = none) :
    DeactivateLogoutView.post get_retired_email_by_email data st
      = (st, .ok ⟨404, .message "The user was not specified."⟩) := by
  simp [DeactivateLogoutView.post, h]

/-- Witness for C8 on a body without a `user` field. -/
theorem deactivate_logout_missing_user_404_witness :
    DeactivateLogoutView.post (fun e => .ok e) [("unrelated", "v")] ⟨[], []⟩
      = (⟨[], []⟩, .ok ⟨404, .message "The user was not specified."⟩) :=
  deactivate_logout_missing_user_404 (fun e => .ok e) [("unrelated", "v")]
    ⟨[], []⟩ rfl

/-- C9: for an existing comma-free username, the single retrieval's field
map is exactly the sole element of the list retrieval's sequence when the
list endpoint is invoked with that one username and the same view. -/
theorem retrieve_agrees_with_list (gas : GetSvc) (request : Request)
    (username : String) (m : FieldMap)
    (hnc : ∀ ch ∈ username.toList, ch ≠ ',') (hne : username ≠ "")
    (hgas : gas (.parsed [username]) request.viewParam = .ok [m]) :
    AccountViewSet.retrieve gas request username
      = .ok ⟨200, .settings m⟩ ∧
    AccountViewSet.list gas { request with usernameParam := some username }
      = .ok ⟨200, .settingsList [m]⟩ := by
  constructor
  · simp [AccountViewSet.retrieve, hgas]
  · simp [AccountViewSet.list, hne, split_usernames_single username hnc, hgas]

/-- Witness for C9 for the username `alice`. -/
theorem retrieve_agrees_with_list_witness :
    AccountViewSet.retrieve (fun _ _ => .ok [[("name", "Alice")]])
        ⟨"alice", false, none, none⟩ "alice"
      = .ok ⟨200, .settings [("name", "Alice")]⟩ ∧
    AccountViewSet.list (fun _ _ => .ok [[("name", "Alice")]])
        ⟨"alice", false, some "alice", none⟩
      = .ok ⟨200, .settingsList [[("name", "Alice")]]⟩ :=
  retrieve_agrees_with_list (fun _ _ => .ok [[("name", "Alice")]])
    ⟨"alice", false, none, none⟩ "alice" [("name", "Alice")]
    (by decide) (by decide) rfl

/-- C10: the administrative deactivation endpoint has no exception
handling: a username with no matching account makes the handler end in the
uncaught does-not-exist exception, never in an HTTP error response. -/
theorem deactivation_view_uncaught_does_not_exist
    (get_account_settings : List UserRec → String → Except PyExc (List FieldMap))
    (users : List UserRec) (username : String)
    (h : users.find? (fun u => u.username = username) = none) :
    AccountDeactivationView.post get_account_settings users username
      = (users, .error .doesNotExist) := by
  simp [AccountDeactivationView.post, objects_get, h]

/-- Witness for C10 on a one-user store and an absent target. -/
theorem deactivation_view_uncaught_does_not_exist_witness :
    AccountDeactivationView.post (fun _ _ => .ok [])
        [⟨"bob", "bob@example.com", true⟩] "ghost"
      = ([⟨"bob", "bob@example.com", true⟩], .error .doesNotExist) :=
  deactivation_view_uncaught_does_not_exist (fun _ _ => .ok [])
    [⟨"bob", "bob@example.com", true⟩] "ghost" rfl

end EdxAccounts
